import Mathlib

/-!
Verification of the automation-agent HTTP service (`src/app/main.py`).

The development shallowly embeds the parts of the program the claims
touch: the POSIX path canonicalization used by the sandbox
(`os.path.abspath` = `normpath` after joining with the working
directory), the sandbox check `ensure_under_data_dir`, the `/read`
endpoint, the `/run` keyword router with its per-branch exception
mapping, and the pure cores of the A3 (Wednesday count), A4 (contact
sort), A5 (recent logs), A9 (similar comments) and A10 (gold sales)
handlers.  External effects (filesystem contents, LLM calls, SQLite)
are passed in as explicit inputs; machine behaviour that the code
delegates to CPython's standard library (`posixpath.normpath`,
`str.split`, `str.lower`, `str.startswith`) is translated
operation-for-operation over lists of characters.
-/

/-- Split a character list at every occurrence of `sep`, keeping empty
components, exactly like Python's `str.split(sep)` with an explicit
separator (so `"".split("/") = [""]` and `"a//b".split("/") = ["a","","b"]`). -/
def splitOnChar (sep : Char) : List Char → List (List Char)
  | [] => [[]]
  | c :: rest =>
    let r := splitOnChar sep rest
    if c = sep then [] :: r
    else
      match r with
      | [] => [[c]]
      | h :: t => (c :: h) :: t

/-- Join character lists with a single separator character, like
Python's `sep.join(parts)`. -/
def joinWith (sep : Char) : List (List Char) → List Char
  | [] => []
  | [c] => c
  | c :: rest => c ++ sep :: joinWith sep rest

/-- CPython `posixpath.normpath` over a list of characters: collapse
repeated separators, drop `.` components, resolve `..` against earlier
components (leaving leading `..` on relative paths and discarding `..`
at the root), preserving the POSIX special case of exactly two leading
slashes. -/
def normpathList (p : List Char) : List Char :=
  if p = [] then ['.']
  else
    let n : Nat :=
      if p.take 1 = ['/'] then
        if p.take 2 = ['/', '/'] ∧ p.take 3 ≠ ['/', '/', '/'] then 2 else 1
      else 0
    let comps := (splitOnChar '/' p).foldl
      (fun acc comp =>
        if comp = [] ∨ comp = ['.'] then acc
        else if comp ≠ ['.', '.'] ∨ (n = 0 ∧ acc = []) ∨ acc.getLast? = some ['.', '.'] then
          acc ++ [comp]
        else acc.dropLast) []
    let out := List.replicate n '/' ++ joinWith '/' comps
    if out = [] then ['.'] else out

/-- `posixpath.normpath` on strings. -/
def normpath (s : String) : String := ⟨normpathList s.data⟩

/-- CPython `posixpath.join` restricted to two arguments: an absolute
second argument replaces the first, otherwise the two are glued with a
single `/` unless the first is empty or already ends in `/`. -/
def joinPath (a b : String) : String :=
  if b.data.take 1 = ['/'] then b
  else if a = "" ∨ a.data.getLast? = some '/' then ⟨a.data ++ b.data⟩
  else ⟨a.data ++ '/' :: b.data⟩

/-- CPython `posixpath.abspath` relative to an explicit working
directory `cwd`: join with `cwd` when the path is relative, then
normalize. -/
def abspath (cwd p : String) : String :=
  if p.data.take 1 = ['/'] then normpath p else normpath (joinPath cwd p)

deriving instance DecidableEq for Except

/-- Python `str.startswith` with a string prefix argument. -/
def strStartsWith (s pre : String) : Bool := List.isPrefixOf pre.data s.data

/-- The path sandbox `ensure_under_data_dir` from `src/app/main.py`:
canonicalize the candidate path and the root `/data` with
`os.path.abspath` and accept exactly when the former starts with the
latter, otherwise raise `ValueError` (modelled as `Except.error` with
the formatted message). -/
def ensure_under_data_dir (cwd path : String) : Except String String :=
  let data_root := abspath cwd "/data"
  let abs_path := abspath cwd path
  if strStartsWith abs_path data_root then Except.ok abs_path
  else Except.error ("Path \x27" ++ path ++ "\x27 is outside /data.")

/-- Python `str.lower` character-wise (all router keywords are ASCII,
where `Char.toLower` agrees with CPython). -/
def lowerString (s : String) : String := ⟨s.data.map Char.toLower⟩

/-- Membership of `pat` as a contiguous substring of `s`, Python's
`pat in s`. -/
def listContainsSub (pat : List Char) : List Char → Bool
  | [] => pat.isEmpty
  | c :: rest => List.isPrefixOf pat (c :: rest) || listContainsSub pat rest

/-- Python `pat in s` on strings. -/
def strContains (s pat : String) : Bool := listContainsSub pat.data s.data

/-- The hardcoded handlers reachable from `POST /run` (`B10` is the
branch that merely points at `GET /filter_csv` and calls no handler). -/
inductive HandlerId
  | A1 | A2 | A3 | A4 | A5 | A6 | A7 | A8 | A9 | A10
  | B3 | B4 | B5 | B6 | B7 | B8 | B9 | B10
deriving DecidableEq

/-- The Python exception classes distinguished by the `except` clauses
of `run_task`: `FileNotFoundError`, `ValueError`,
`subprocess.CalledProcessError`, `sqlite3.Error`, and every other
`Exception`. -/
inductive Exc
  | fileNotFound | valueError | calledProcessError | sqliteError | otherError
deriving DecidableEq

/-- An exception value: its class together with its `str(e)` text. -/
structure ExcInfo where
  kind : Exc
  text : String
deriving DecidableEq

/-- Observable behaviour of one handler call: it either returns
normally or raises an exception. -/
inductive HandlerBehavior
  | completes
  | raises (e : ExcInfo)
deriving DecidableEq

/-- Result of the router's keyword matching: the hard refusal for
delete/remove, the first matching handler branch, or the fall-through
echo response. -/
inductive Dispatch
  | refused
  | run (h : HandlerId)
  | unrecognized
deriving DecidableEq

/-- Outcome of `POST /run` as observed by the HTTP client: a 200 JSON
message, an `HTTPException` with status and detail, or an exception
escaping the route function (which FastAPI then turns into a generic
500 response that does not carry the exception text). -/
inductive RunOutcome
  | success (msg : String)
  | httpError (status : Nat) (detail : String)
  | unhandled (e : ExcInfo)
deriving DecidableEq

/-- Per-request environment for the `/run` route: the behaviour of each
handler when invoked (external world: files, network, LLM), the user
email the A1 branch resolves from the task text / query parameter, and
the row count the B5 branch reports. -/
structure Env where
  behav : HandlerId → HandlerBehavior
  a1Email : String
  b5Rows : Nat

/-- The keyword chain of `run_task` in source order: the delete/remove
refusal first, then the first `if` whose lowercase keyword set matches
the lowercased task wins. -/
def dispatch (task : String) : Dispatch :=
  let t := lowerString task
  if strContains t "delete" || strContains t "remove" then Dispatch.refused
  else if strContains t "a1" || strContains t "datagen" then Dispatch.run HandlerId.A1
  else if strContains t "a2" || strContains t "format.md" then Dispatch.run HandlerId.A2
  else if strContains t "a3" || strContains t "wednesday" || strContains t "dates-wednesdays.txt" then Dispatch.run HandlerId.A3
  else if strContains t "a4" || strContains t "contacts-sorted" then Dispatch.run HandlerId.A4
  else if strContains t "a5" || strContains t "logs-recent" then Dispatch.run HandlerId.A5
  else if strContains t "a6" || strContains t "index.json" || strContains t "docs" then Dispatch.run HandlerId.A6
  else if strContains t "a7" || strContains t "email-sender" then Dispatch.run HandlerId.A7
  else if strContains t "a8" || strContains t "credit card" then Dispatch.run HandlerId.A8
  else if strContains t "a9" || strContains t "comments-similar" then Dispatch.run HandlerId.A9
  else if strContains t "a10" || strContains t "ticket-sales-gold" then Dispatch.run HandlerId.A10
  else if strContains t "b3" || strContains t "fetch api" then Dispatch.run HandlerId.B3
  else if strContains t "b4" || strContains t "clone repo" then Dispatch.run HandlerId.B4
  else if strContains t "b5" || strContains t "run sql" then Dispatch.run HandlerId.B5
  else if strContains t "b6" || strContains t "scrape" then Dispatch.run HandlerId.B6
  else if strContains t "b7" || strContains t "resize image" then Dispatch.run HandlerId.B7
  else if strContains t "b8" || strContains t "transcribe" then Dispatch.run HandlerId.B8
  else if strContains t "b9" || strContains t "convert md to html" then Dispatch.run HandlerId.B9
  else if strContains t "b10" || strContains t "filter csv" then Dispatch.run HandlerId.B10
  else Dispatch.unrecognized

/-- The 200 message each branch returns on success, verbatim from the
source. -/
def successMsg (env : Env) : HandlerId → String
  | HandlerId.A1 => "A1 completed successfully for " ++ env.a1Email
  | HandlerId.A2 => "A2 completed: /data/format.md has been prettified"
  | HandlerId.A3 => "A3 completed: /data/dates-wednesdays.txt updated"
  | HandlerId.A4 => "A4 completed: /data/contacts-sorted.json created"
  | HandlerId.A5 => "A5 completed: /data/logs-recent.txt written"
  | HandlerId.A6 => "A6 completed: /data/docs/index.json created"
  | HandlerId.A7 => "A7 completed: /data/email-sender.txt created"
  | HandlerId.A8 => "A8 completed: /data/credit-card.txt created"
  | HandlerId.A9 => "A9 completed: /data/comments-similar.txt updated"
  | HandlerId.A10 => "A10 completed: /data/ticket-sales-gold.txt created"
  | HandlerId.B3 => "B3 completed: Fetched data -> /data/fetched.json"
  | HandlerId.B4 => "B4 completed: Cloned https://github.com/someuser/somerepo.git and committed."
  | HandlerId.B5 => "B5 completed: Query wrote " ++ toString env.b5Rows ++ " rows to /data/query_output.json"
  | HandlerId.B6 => "B6 completed: Website data -> /data/scraped.json"
  | HandlerId.B7 => "B7 completed: /data/large.png resized -> /data/large-resized.png"
  | HandlerId.B8 => "B8 completed: Audio transcribed -> /data/meeting-transcript.txt"
  | HandlerId.B9 => "B9 completed: /data/docs/example.md -> /data/docs/example.html"
  | HandlerId.B10 => "Use GET /filter_csv?col=...&value=... for B10 filtering."

/-- The try/except structure of each branch of `run_task`, applied to
the invoked handler's behaviour.  A1 maps every exception to 500; A2
wraps its handler in no try at all; A3..A10 map `FileNotFoundError` to
400 and every other exception to 500; the B branches catch only
`ValueError` (to 400) plus, for B4, `CalledProcessError` (to 500) and,
for B5, `sqlite3.Error` (to 500 with an `SQL error: ` prefix); B10
invokes no handler and always returns its message. -/
def catchRun (h : HandlerId) (b : HandlerBehavior) (msg : String) : RunOutcome :=
  match h, b with
  | HandlerId.B10, _ => RunOutcome.success msg
  | _, HandlerBehavior.completes => RunOutcome.success msg
  | HandlerId.A1, HandlerBehavior.raises e => RunOutcome.httpError 500 e.text
  | HandlerId.A2, HandlerBehavior.raises e => RunOutcome.unhandled e
  | HandlerId.A3, HandlerBehavior.raises e
  | HandlerId.A4, HandlerBehavior.raises e
  | HandlerId.A5, HandlerBehavior.raises e
  | HandlerId.A6, HandlerBehavior.raises e
  | HandlerId.A7, HandlerBehavior.raises e
  | HandlerId.A8, HandlerBehavior.raises e
  | HandlerId.A9, HandlerBehavior.raises e
  | HandlerId.A10, HandlerBehavior.raises e =>
    if e.kind = Exc.fileNotFound then RunOutcome.httpError 400 e.text
    else RunOutcome.httpError 500 e.text
  | HandlerId.B4, HandlerBehavior.raises e =>
    if e.kind = Exc.valueError then RunOutcome.httpError 400 e.text
    else if e.kind = Exc.calledProcessError then RunOutcome.httpError 500 e.text
    else RunOutcome.unhandled e
  | HandlerId.B5, HandlerBehavior.raises e =>
    if e.kind = Exc.valueError then RunOutcome.httpError 400 e.text
    else if e.kind = Exc.sqliteError then RunOutcome.httpError 500 ("SQL error: " ++ e.text)
    else RunOutcome.unhandled e
  | HandlerId.B3, HandlerBehavior.raises e
  | HandlerId.B6, HandlerBehavior.raises e
  | HandlerId.B7, HandlerBehavior.raises e
  | HandlerId.B8, HandlerBehavior.raises e
  | HandlerId.B9, HandlerBehavior.raises e =>
    if e.kind = Exc.valueError then RunOutcome.httpError 400 e.text
    else RunOutcome.unhandled e

/-- The `POST /run` route: refuse delete/remove with HTTP 400, else run
the first matching branch under its try/except structure, else echo the
task back with HTTP 200. -/
def run_task (env : Env) (task : String) : RunOutcome :=
  match dispatch task with
  | Dispatch.refused =>
    RunOutcome.httpError 400 "Deleting files is not permitted (B2)."
  | Dispatch.run h => catchRun h (env.behav h) (successMsg env h)
  | Dispatch.unrecognized =>
    RunOutcome.success ("Received task: " ++ task ++ " (but not recognized as A/B task)")

/-- Python `str.strip()` on characters: drop ASCII whitespace from both
ends. -/
def trimChars (cs : List Char) : List Char :=
  ((cs.dropWhile fun c => c.isWhitespace).reverse.dropWhile fun c => c.isWhitespace).reverse

/-- Python `str.strip()` on strings. -/
def trimString (s : String) : String := ⟨trimChars s.data⟩

/-- External inputs of the A9 handler `find_similar_comments`: whether
`/data/comments.txt` exists, its raw lines, and the combined outcome of
the LLM call plus JSON parsing plus best-pair check (an `Except.error`
covers any exception raised inside the handler's try block). -/
structure A9Env where
  fileExists : Bool
  rawLines : List String
  llm : Except String (String × String)

/-- The A9 handler `find_similar_comments`: returns its behaviour as
seen by the router together with the content it wrote to
`/data/comments-similar.txt` (`none` when it wrote nothing).  A missing
input file raises `FileNotFoundError`; fewer than two nonempty lines
writes the empty string and returns; any failure of the LLM/parse step
is caught by the handler's own `except`, printed, and swallowed — the
handler returns normally having written nothing. -/
def find_similar_comments (e : A9Env) : HandlerBehavior × Option String :=
  if ¬ e.fileExists then
    (HandlerBehavior.raises ⟨Exc.fileNotFound, "/data/comments.txt does not exist"⟩, none)
  else
    let lines := (e.rawLines.map trimString).filter (fun l => l ≠ "")
    if lines.length < 2 then (HandlerBehavior.completes, some "")
    else
      match e.llm with
      | Except.error _ => (HandlerBehavior.completes, none)
      | Except.ok (c1, c2) => (HandlerBehavior.completes, some (c1 ++ "\n" ++ c2 ++ "\n"))

/-- Response of `GET /read`: the file contents as plain text, or an
HTTP 404 with the given detail. -/
inductive ReadResult
  | plainText (content : String)
  | notFound (detail : String)
deriving DecidableEq

/-- The `GET /read` route: sandbox-check the path (a `ValueError`
becomes 404 with the error text), then look the canonical path up in
the filesystem `fs` (regular files only); a missing file is 404, an
existing one is returned as plain text. -/
def read_file (cwd : String) (fs : String → Option String) (path : String) : ReadResult :=
  match ensure_under_data_dir cwd path with
  | Except.error e => ReadResult.notFound e
  | Except.ok p =>
    match fs p with
    | none => ReadResult.notFound "File not found."
    | some content => ReadResult.plainText content

/-- An environment in which every handler call returns normally. -/
def envAllComplete : Env :=
  { behav := fun _ => HandlerBehavior.completes
    a1Email := "user@example.com"
    b5Rows := 0 }

/-- An environment in which every handler call raises
`FileNotFoundError` (e.g. the handler's input file is absent). -/
def envRaisesFNF : Env :=
  { behav := fun _ => HandlerBehavior.raises ⟨Exc.fileNotFound, "missing"⟩
    a1Email := ""
    b5Rows := 0 }

/-- A9 inputs on which the comments file exists with two comments but
the LLM call fails. -/
def a9EnvFail : A9Env :=
  { fileExists := true
    rawLines := ["first comment", "second comment"]
    llm := Except.error "network error" }

/-- The request environment induced by `a9EnvFail`: the A9 branch sees
exactly the behaviour `find_similar_comments` exhibits on those inputs,
every other handler completes. -/
def envA9Fail : Env :=
  { behav := fun h =>
      if h = HandlerId.A9 then (find_similar_comments a9EnvFail).1
      else HandlerBehavior.completes
    a1Email := ""
    b5Rows := 0 }

/-- A one-file filesystem for exercising `GET /read`. -/
def fsEx : String → Option String :=
  fun p => if p = "/data/notes.txt" then some "hello" else none

/-- Python `int(...)` on a run of decimal digit characters; `none` on
the empty list or any non-digit. -/
def digitsToNat (cs : List Char) : Option Nat :=
  if cs = [] then none
  else cs.foldl (fun acc c =>
    match acc with
    | none => none
    | some n => if c.isDigit then some (n * 10 + (c.toNat - 48)) else none) (some 0)

/-- Modelled from the external `dateutil.parser.parse` on the ISO
`YYYY-MM-DD` strings the A3 task corpus uses: split at `-`, read the
three decimal fields, reject out-of-range month or day. -/
def parseDate (cs : List Char) : Option (Nat × Nat × Nat) :=
  match splitOnChar '-' cs with
  | [ys, ms, ds] =>
    match digitsToNat ys, digitsToNat ms, digitsToNat ds with
    | some y, some m, some d =>
      if 1 ≤ m ∧ m ≤ 12 ∧ 1 ≤ d ∧ d ≤ 31 then some (y, m, d) else none
    | _, _, _ => none
  | _ => none

/-- CPython `datetime.weekday()` (Monday = 0 … Sunday = 6) for a
Gregorian date, via Zeller's congruence. -/
def pyWeekday (y m d : Nat) : Nat :=
  let ym := if m ≤ 2 then (y - 1, m + 12) else (y, m)
  let K := ym.1 % 100
  let J := ym.1 / 100
  let h := (d + 13 * (ym.2 + 1) / 5 + K + K / 4 + J / 4 + 5 * J) % 7
  (h + 5) % 7

/-- The counting loop of the A3 handler `count_wednesdays_in_dates`:
for each line of the input file, strip it, skip it if empty, parse it
as a date and count it when its weekday is Wednesday (2); unparseable
lines only produce a warning and are skipped. -/
def count_wednesdays (content : String) : Nat :=
  (splitOnChar '\n' content.data).foldl (fun n lineChars =>
    let line := trimChars lineChars
    if line = [] then n
    else
      match parseDate line with
      | some (y, m, d) => if pyWeekday y m d = 2 then n + 1 else n
      | none => n) 0

/-- The A3 handler `count_wednesdays_in_dates` on an existing input
file with the given contents: sandbox-check both fixed paths, then
write the decimal rendering of the Wednesday count to the output path.
Returns the output path and the written string. -/
def count_wednesdays_in_dates (cwd content : String) : Except String (String × String) :=
  match ensure_under_data_dir cwd "/data/dates.txt" with
  | Except.error e => Except.error e
  | Except.ok _ =>
    match ensure_under_data_dir cwd "/data/dates-wednesdays.txt" with
    | Except.error e => Except.error e
    | Except.ok op => Except.ok (op, toString (count_wednesdays content))

/-- A contact record as consumed by the A4 handler. -/
structure Contact where
  first_name : String
  last_name : String
deriving DecidableEq

/-- CPython's `<` on strings: strict lexicographic comparison of the
code-point sequences, with a proper prefix smaller than its
extensions. -/
def listLtChars : List Char → List Char → Bool
  | _, [] => false
  | [], _ :: _ => true
  | a :: as, b :: bs =>
    if a < b then true
    else if b < a then false
    else listLtChars as bs

/-- Python `a < b` on strings. -/
def strLt (a b : String) : Prop := listLtChars a.data b.data = true

instance (a b : String) : Decidable (strLt a b) := by
  unfold strLt
  infer_instance

/-- Python's tuple comparison on the sort key
`(last_name, first_name)`: the lexicographic (non-strict) order the A4
handler sorts by. -/
def contactLe (c₁ c₂ : Contact) : Prop :=
  strLt c₁.last_name c₂.last_name ∨
    (c₁.last_name = c₂.last_name ∧
      (strLt c₁.first_name c₂.first_name ∨ c₁.first_name = c₂.first_name))

instance : DecidableRel contactLe := fun c₁ c₂ => by
  unfold contactLe
  infer_instance

theorem listLtChars_eq_of_not_lt : ∀ as bs : List Char,
    listLtChars as bs = false → listLtChars bs as = false → as = bs
  | [], [], _, _ => rfl
  | [], _ :: _, h, _ => by simp [listLtChars] at h
  | _ :: _, [], _, h => by simp [listLtChars] at h
  | a :: as, b :: bs, h1, h2 => by
    by_cases hab : a < b
    · simp [listLtChars, hab] at h1
    · by_cases hba : b < a
      · simp [listLtChars, hba] at h2
      · have he : a = b := le_antisymm (not_lt.mp hba) (not_lt.mp hab)
        subst he
        simp only [listLtChars, if_neg hab, if_neg hba] at h1 h2
        rw [listLtChars_eq_of_not_lt as bs h1 h2]

theorem listLtChars_trans : ∀ as bs cs : List Char,
    listLtChars as bs = true → listLtChars bs cs = true → listLtChars as cs = true
  | _, [], _, h1, _ => by simp [listLtChars] at h1
  | _, _, [], _, h2 => by simp [listLtChars] at h2
  | [], _ :: _, _ :: _, _, _ => rfl
  | a :: as, b :: bs, c :: cs, h1, h2 => by
    by_cases hab : a < b
    · by_cases hbc : b < c
      · simp [listLtChars, lt_trans hab hbc]
      · by_cases hcb : c < b
        · simp [listLtChars, hbc, hcb] at h2
        · have he : b = c := le_antisymm (not_lt.mp hcb) (not_lt.mp hbc)
          subst he
          simp [listLtChars, hab]
    · by_cases hba : b < a
      · simp [listLtChars, hab, hba] at h1
      · have he : a = b := le_antisymm (not_lt.mp hba) (not_lt.mp hab)
        subst he
        simp only [listLtChars, if_neg hab, if_neg hba] at h1
        by_cases hbc : a < c
        · simp [listLtChars, hbc]
        · by_cases hcb : c < a
          · simp [listLtChars, hbc, hcb] at h2
          · have he2 : a = c := le_antisymm (not_lt.mp hcb) (not_lt.mp hbc)
            subst he2
            simp only [listLtChars, if_neg hbc, if_neg hcb] at h2 ⊢
            exact listLtChars_trans as bs cs h1 h2

theorem strLt_or_eq_or_gt (a b : String) : strLt a b ∨ a = b ∨ strLt b a := by
  by_cases h1 : listLtChars a.data b.data = true
  · exact Or.inl h1
  · by_cases h2 : listLtChars b.data a.data = true
    · exact Or.inr (Or.inr h2)
    · refine Or.inr (Or.inl ?_)
      have he := listLtChars_eq_of_not_lt a.data b.data
        (Bool.not_eq_true _ ▸ h1) (Bool.not_eq_true _ ▸ h2)
      exact congrArg String.mk he

theorem strLt_trans {a b c : String} (h1 : strLt a b) (h2 : strLt b c) : strLt a c :=
  listLtChars_trans a.data b.data c.data h1 h2

instance : IsTotal Contact contactLe := by
  constructor
  intro a b
  rcases strLt_or_eq_or_gt a.last_name b.last_name with h | h | h
  · exact Or.inl (Or.inl h)
  · rcases strLt_or_eq_or_gt a.first_name b.first_name with h2 | h2 | h2
    · exact Or.inl (Or.inr ⟨h, Or.inl h2⟩)
    · exact Or.inl (Or.inr ⟨h, Or.inr h2⟩)
    · exact Or.inr (Or.inr ⟨h.symm, Or.inl h2⟩)
  · exact Or.inr (Or.inl h)

instance : IsTrans Contact contactLe := by
  constructor
  intro a b c hab hbc
  rcases hab with h1 | ⟨e1, f1⟩ <;> rcases hbc with h2 | ⟨e2, f2⟩
  · exact Or.inl (strLt_trans h1 h2)
  · exact Or.inl (e2 ▸ h1)
  · exact Or.inl (e1 ▸ h2)
  · refine Or.inr ⟨e1.trans e2, ?_⟩
    rcases f1 with g1 | g1 <;> rcases f2 with g2 | g2
    · exact Or.inl (strLt_trans g1 g2)
    · exact Or.inl (g2 ▸ g1)
    · exact Or.inl (g1 ▸ g2)
    · exact Or.inr (g1.trans g2)

/-- The A4 handler's sort: CPython `sorted` with key
`(last_name, first_name)` is a stable ascending sort by that key, which
insertion sort with the non-strict key order realizes. -/
def sort_contacts (cs : List Contact) : List Contact :=
  List.insertionSort contactLe cs

/-- A row of the `tickets` table read by the A10 handler (prices are
exact in every claim instance, so they are modelled in `ℚ`). -/
structure Ticket where
  type : String
  units : Int
  price : Rat

/-- SQLite `SELECT SUM(units * price) FROM tickets WHERE type = 'Gold'`:
`NULL` (`none`) when no row matches, otherwise the sum over the
matching rows, scanning the table in order. -/
def sumGold : List Ticket → Option Rat
  | [] => none
  | t :: ts =>
    if t.type = "Gold" then some ((t.units : Rat) * t.price + (sumGold ts).getD 0)
    else sumGold ts

/-- The A10 handler `calculate_gold_sales`: the query result, with the
code's `result[0] if result[0] is not None else 0` turning `NULL` into
`0`; this is the number whose decimal rendering is written to
`/data/ticket-sales-gold.txt`. -/
def calculate_gold_sales (rows : List Ticket) : Rat :=
  (sumGold rows).getD 0

/-- External inputs of the A5 handler `get_recent_logs`: whether
`/data/logs` exists as a directory, and the `*.log` files it contains,
each as its modification time with the first line of its contents. -/
structure LogsEnv where
  dirExists : Bool
  logFiles : List (Int × String)

/-- Descending-mtime comparison used by the A5 handler's
`sorted(..., key=os.path.getmtime, reverse=True)`. -/
def mtimeGe (a b : Int × String) : Prop := b.1 ≤ a.1

instance : DecidableRel mtimeGe := fun a b => by
  unfold mtimeGe
  infer_instance

/-- The A5 handler `get_recent_logs`: a missing logs directory raises
`FileNotFoundError`; with no `*.log` files it writes the empty string
and returns; otherwise it writes the first lines of the ten most
recently modified files, newest first, joined by newlines.  The result
is the content written to `/data/logs-recent.txt`. -/
def get_recent_logs (e : LogsEnv) : Except ExcInfo String :=
  if ¬ e.dirExists then
    Except.error ⟨Exc.fileNotFound, "The directory \x27/data/logs\x27 does not exist."⟩
  else if e.logFiles = [] then Except.ok ""
  else
    let sorted := List.insertionSort mtimeGe e.logFiles
    let top10 := sorted.take 10
    Except.ok ⟨joinWith '\n' (top10.map fun f => f.2.data)⟩

/-- The logs environment of an existing but logless directory. -/
def logsEnvEmpty : LogsEnv := ⟨true, []⟩

theorem abspath_data_root (cwd : String) : abspath cwd "/data" = "/data" := rfl

/-- Helper: when the canonical path starts with the canonical root the
sandbox returns it. -/
theorem ensure_under_data_dir_ok (cwd path : String)
    (h : strStartsWith (abspath cwd path) "/data" = true) :
    ensure_under_data_dir cwd path = Except.ok (abspath cwd path) := by
  simp [ensure_under_data_dir, abspath_data_root, h]

/-- Helper: when the canonical path does not start with the canonical
root the sandbox raises `ValueError` with the formatted message. -/
theorem ensure_under_data_dir_err (cwd path : String)
    (h : strStartsWith (abspath cwd path) "/data" = false) :
    ensure_under_data_dir cwd path =
      Except.error ("Path \x27" ++ path ++ "\x27 is outside /data.") := by
  simp [ensure_under_data_dir, abspath_data_root, h]

/-- C1: a path whose canonical absolute form does not begin with the
canonical data root `/data` is rejected by `ensure_under_data_dir`
with a `ValueError`. -/
theorem ensure_under_data_dir_rejects_outside (cwd path : String)
    (h : strStartsWith (abspath cwd path) "/data" = false) :
    ensure_under_data_dir cwd path =
      Except.error ("Path \x27" ++ path ++ "\x27 is outside /data.") :=
  ensure_under_data_dir_err cwd path h

/-- C1 witness: `/etc/passwd` canonicalizes to itself, does not start
with `/data`, and is rejected. -/
theorem ensure_under_data_dir_rejects_outside_witness :
    strStartsWith (abspath "/app" "/etc/passwd") "/data" = false ∧
      ensure_under_data_dir "/app" "/etc/passwd" =
        Except.error ("Path \x27" ++ "/etc/passwd" ++ "\x27 is outside /data.") :=
  ⟨by decide, ensure_under_data_dir_rejects_outside "/app" "/etc/passwd" (by decide)⟩

/-- C2: the sandbox's bare `startswith` admits the sibling directory
`/data-other`: the path `/data-other/x` is accepted and returned as
valid although it is neither the root itself nor below `/data/`. -/
theorem ensure_under_data_dir_sibling_bypass :
    ensure_under_data_dir "/app" "/data-other/x" = Except.ok "/data-other/x" ∧
      "/data-other/x" ≠ "/data" ∧
      strStartsWith "/data-other/x" "/data/" = false := by
  refine ⟨by decide, by decide, by decide⟩

/-- C3: a task string containing `delete` or `remove` (any case) is
refused with HTTP 400 and no handler branch is dispatched. -/
theorem run_task_refuses_delete_remove (env : Env) (task : String)
    (h : strContains (lowerString task) "delete" = true ∨
         strContains (lowerString task) "remove" = true) :
    run_task env task =
        RunOutcome.httpError 400 "Deleting files is not permitted (B2)." ∧
      dispatch task = Dispatch.refused := by
  have hb : (strContains (lowerString task) "delete" ||
      strContains (lowerString task) "remove") = true := by
    rcases h with h | h <;> simp [h]
  have hd : dispatch task = Dispatch.refused := by
    simp [dispatch, hb]
  exact ⟨by simp [run_task, hd], hd⟩

/-- C3 witness: a mixed-case task containing `DELETE` is refused. -/
theorem run_task_refuses_delete_remove_witness :
    strContains (lowerString "Please DELETE the report") "delete" = true ∧
      (run_task envAllComplete "Please DELETE the report" =
          RunOutcome.httpError 400 "Deleting files is not permitted (B2)." ∧
        dispatch "Please DELETE the report" = Dispatch.refused) :=
  ⟨by decide,
    run_task_refuses_delete_remove envAllComplete "Please DELETE the report"
      (Or.inl (by decide))⟩

/-- C4 counterexample: the task `b7` dispatches to the image-resize
handler, whose branch catches only `ValueError`; a `FileNotFoundError`
raised there escapes the route unhandled (FastAPI then answers with a
generic 500), so it is not surfaced as HTTP 400 with the exception
text. -/
theorem run_task_b7_fnf_not_400 :
    dispatch "b7" = Dispatch.run HandlerId.B7 ∧
      envRaisesFNF.behav HandlerId.B7 =
        HandlerBehavior.raises ⟨Exc.fileNotFound, "missing"⟩ ∧
      run_task envRaisesFNF "b7" =
        RunOutcome.unhandled ⟨Exc.fileNotFound, "missing"⟩ ∧
      run_task envRaisesFNF "b7" ≠ RunOutcome.httpError 400 "missing" :=
  ⟨by decide, rfl, by decide, by decide⟩

/-- C4 amended: the FileNotFoundError-to-400 / other-exception-to-500
mapping holds exactly for the branches A3 through A10; A1 maps every
exception to 500, A2 catches nothing, and the B branches catch only
`ValueError` (plus `CalledProcessError` for B4 and `sqlite3.Error` for
B5). -/
theorem run_task_a3_to_a10_exception_mapping (env : Env) (task : String)
    (h : HandlerId) (e : ExcInfo)
    (hd : dispatch task = Dispatch.run h)
    (hmem : h ∈ [HandlerId.A3, HandlerId.A4, HandlerId.A5, HandlerId.A6,
      HandlerId.A7, HandlerId.A8, HandlerId.A9, HandlerId.A10])
    (hb : env.behav h = HandlerBehavior.raises e) :
    run_task env task =
      (if e.kind = Exc.fileNotFound then RunOutcome.httpError 400 e.text
       else RunOutcome.httpError 500 e.text) := by
  simp only [run_task, hd]
  fin_cases hmem <;> rw [hb] <;> rfl

/-- C4 amended witness: the task `a3` with a missing input file is
answered with HTTP 400 carrying the exception text. -/
theorem run_task_a3_to_a10_exception_mapping_witness :
    dispatch "a3" = Dispatch.run HandlerId.A3 ∧
      envRaisesFNF.behav HandlerId.A3 =
        HandlerBehavior.raises ⟨Exc.fileNotFound, "missing"⟩ ∧
      run_task envRaisesFNF "a3" = RunOutcome.httpError 400 "missing" :=
  ⟨by decide, rfl, by
    simpa using run_task_a3_to_a10_exception_mapping envRaisesFNF "a3"
      HandlerId.A3 ⟨Exc.fileNotFound, "missing"⟩ (by decide) (by decide) rfl⟩

/-- C5 counterexample: when the A9 handler's LLM step fails,
`find_similar_comments` swallows the error and returns normally having
written nothing, and the route answers HTTP 200 with the A9 success
message — success is reported although the handler did not complete its
transformation. -/
theorem run_task_a9_success_without_output :
    dispatch "a9" = Dispatch.run HandlerId.A9 ∧
      envA9Fail.behav HandlerId.A9 = (find_similar_comments a9EnvFail).1 ∧
      (find_similar_comments a9EnvFail).2 = none ∧
      run_task envA9Fail "a9" =
        RunOutcome.success "A9 completed: /data/comments-similar.txt updated" :=
  ⟨by decide, rfl, by decide, by decide⟩

/-- C5 amended: for every branch that invokes a handler (all but B10),
the route reports success only when that handler returned without
raising; the guarantee is weaker than full completion because A9 can
return normally after swallowing an internal failure. -/
theorem run_task_success_requires_normal_return (env : Env) (task : String)
    (h : HandlerId) (m : String)
    (hd : dispatch task = Dispatch.run h)
    (h10 : h ≠ HandlerId.B10)
    (hs : run_task env task = RunOutcome.success m) :
    env.behav h = HandlerBehavior.completes := by
  simp only [run_task, hd] at hs
  rcases hbe : env.behav h with _ | e
  · rfl
  · exfalso
    rw [hbe] at hs
    cases h <;>
      simp only [catchRun] at hs <;>
      first
        | exact h10 rfl
        | (split at hs <;> (try split at hs) <;> simp at hs)
        | simp at hs

/-- C5 amended witness: the task `a4` with a completing handler yields
success, and the theorem recovers that the handler completed. -/
theorem run_task_success_requires_normal_return_witness :
    dispatch "a4" = Dispatch.run HandlerId.A4 ∧
      run_task envAllComplete "a4" =
        RunOutcome.success "A4 completed: /data/contacts-sorted.json created" ∧
      envAllComplete.behav HandlerId.A4 = HandlerBehavior.completes :=
  ⟨by decide, by decide,
    run_task_success_requires_normal_return envAllComplete "a4" HandlerId.A4
      "A4 completed: /data/contacts-sorted.json created" (by decide)
      (by decide) (by decide)⟩

/-- C6: `GET /read` returns the file contents as plain text exactly
when the canonical path is under the data root and the file exists,
answers 404 otherwise, and in particular `/etc/passwd` is answered with
404. -/
theorem read_file_spec :
    (∀ cwd fs path content,
        strStartsWith (abspath cwd path) "/data" = true →
        fs (abspath cwd path) = some content →
        read_file cwd fs path = ReadResult.plainText content) ∧
      (∀ cwd fs path,
        strStartsWith (abspath cwd path) "/data" = true →
        fs (abspath cwd path) = none →
        read_file cwd fs path = ReadResult.notFound "File not found.") ∧
      (∀ cwd fs path,
        strStartsWith (abspath cwd path) "/data" = false →
        read_file cwd fs path =
          ReadResult.notFound ("Path \x27" ++ path ++ "\x27 is outside /data.")) ∧
      (∀ (cwd : String) (fs : String → Option String),
        read_file cwd fs "/etc/passwd" =
          ReadResult.notFound ("Path \x27/etc/passwd\x27 is outside /data.")) := by
  refine ⟨?_, ?_, ?_, ?_⟩
  · intro cwd fs path content h hfs
    simp [read_file, ensure_under_data_dir_ok cwd path h, hfs]
  · intro cwd fs path h hfs
    simp [read_file, ensure_under_data_dir_ok cwd path h, hfs]
  · intro cwd fs path h
    simp [read_file, ensure_under_data_dir_err cwd path h]
  · intro cwd fs
    have habs : abspath cwd "/etc/passwd" = "/etc/passwd" := rfl
    have h : strStartsWith (abspath cwd "/etc/passwd") "/data" = false := by
      rw [habs]
      decide
    have he := ensure_under_data_dir_err cwd "/etc/passwd" h
    simp only [read_file, he]
    decide

/-- C6 witness: an existing file under the root is returned as plain
text. -/
theorem read_file_spec_witness :
    strStartsWith (abspath "/app" "/data/notes.txt") "/data" = true ∧
      fsEx (abspath "/app" "/data/notes.txt") = some "hello" ∧
      read_file "/app" fsEx "/data/notes.txt" = ReadResult.plainText "hello" :=
  ⟨by decide, by decide,
    read_file_spec.1 "/app" fsEx "/data/notes.txt" "hello" (by decide) (by decide)⟩

/-- C7: on an input file whose lines are the three Wednesdays
2024-01-03, 2024-01-10 and 2024-01-17, the A3 handler writes the
string `3` to `/data/dates-wednesdays.txt`. -/
theorem count_wednesdays_three_wednesdays :
    count_wednesdays_in_dates "/" "2024-01-03\n2024-01-10\n2024-01-17" =
      Except.ok ("/data/dates-wednesdays.txt", "3") := by
  decide

/-- C8: the A4 handler's output is ordered by last name then first
name ascending and is a permutation of its input; in particular the
A/A record precedes the B/Z record. -/
theorem sort_contacts_spec :
    (∀ cs : List Contact,
        List.Sorted contactLe (sort_contacts cs) ∧
          List.Perm (sort_contacts cs) cs) ∧
      sort_contacts [⟨"B", "Z"⟩, ⟨"A", "A"⟩] = [⟨"A", "A"⟩, ⟨"B", "Z"⟩] := by
  refine ⟨fun cs => ⟨List.sorted_insertionSort contactLe cs, ?_⟩, ?_⟩
  · exact List.perm_insertionSort contactLe cs
  · decide

/-- C9: the A10 handler computes the sum of `units * price` over
exactly the rows typed `Gold`; on the two-row table of the claim it
writes the value 20 and the Silver row does not contribute. -/
theorem calculate_gold_sales_spec :
    (∀ rows : List Ticket,
        calculate_gold_sales rows =
          ((rows.filter fun t => t.type == "Gold").map
              fun t => (t.units : Rat) * t.price).sum) ∧
      calculate_gold_sales [⟨"Gold", 2, 10⟩, ⟨"Silver", 5, 3⟩] = 20 ∧
      calculate_gold_sales [⟨"Gold", 2, 10⟩, ⟨"Silver", 5, 3⟩] =
        calculate_gold_sales [⟨"Gold", 2, 10⟩] := by
  have key : ∀ rows : List Ticket,
      calculate_gold_sales rows =
        ((rows.filter fun t => t.type == "Gold").map
            fun t => (t.units : Rat) * t.price).sum := by
    intro rows
    induction rows with
    | nil => rfl
    | cons t ts ih =>
      unfold calculate_gold_sales at ih ⊢
      rw [List.filter_cons]
      by_cases h : t.type = "Gold"
      · simp [sumGold, h, ih]
      · have hb : (t.type == "Gold") = false := by simpa using h
        simp [sumGold, h, hb, ih]
  have hsilver : ("Silver" : String) ≠ "Gold" := by decide
  refine ⟨key, ?_, ?_⟩
  · simp [calculate_gold_sales, sumGold, hsilver]
    norm_num
  · simp [calculate_gold_sales, sumGold, hsilver]

/-- C10: when `/data/logs` exists but holds no `*.log` file, the A5
handler writes the empty string to `/data/logs-recent.txt` and returns
successfully. -/
theorem get_recent_logs_no_logs (e : LogsEnv)
    (h1 : e.dirExists = true) (h2 : e.logFiles = []) :
    get_recent_logs e = Except.ok "" := by
  simp [get_recent_logs, h1, h2]

/-- C10 witness: the empty logs directory environment. -/
theorem get_recent_logs_no_logs_witness :
    logsEnvEmpty.dirExists = true ∧ logsEnvEmpty.logFiles = [] ∧
      get_recent_logs logsEnvEmpty = Except.ok "" :=
  ⟨rfl, rfl, get_recent_logs_no_logs logsEnvEmpty rfl rfl⟩
